import Mathlib

/-!
Shallow embedding of the Orbit code-execution engine (final version:
`main.go` with AI diagnosis and metrics).  Pure string manipulation is
modelled directly; the effectful Docker/Redis/HTTP calls are modelled by
passing in the outcome of each external call explicitly and recording the
writes and side effects the code performs.
-/

namespace Orbit

/-- Whitespace predicate modelling Go `unicode.IsSpace` on the Latin-1
range; this is what `strings.TrimSpace` strips at either end. -/
def isSpace (c : Char) : Bool :=
  c = ' ' || c = '\t' || c = '\n' || c = '\u000B' || c = '\u000C' || c = '\r' ||
    c = '\u0085' || c = '\u00A0'

/-- Go `strings.TrimSpace`: strip leading and trailing whitespace. -/
def trimSpace (s : String) : String :=
  ⟨(((s.data.dropWhile isSpace).reverse).dropWhile isSpace).reverse⟩

/-- Go `strings.Contains s pat`: `pat` occurs contiguously inside `s`. -/
def containsSubstr (s pat : String) : Bool :=
  decide (pat.data <:+: s.data)

/-- The `Job` struct persisted in Redis (JSON field names omitted). -/
structure Job where
  id : String
  code : String
  expectedOutput : String
  actualOutput : String
  verdict : String
  aiDiagnosis : String
  status : String
  createdAt : Int
deriving DecidableEq, Repr

/-- The Go zero value of `Job`, as produced by `var job Job` when a
`json.Unmarshal` fails and leaves the struct untouched. -/
def zeroJob : Job :=
  { id := "", code := "", expectedOutput := "", actualOutput := "",
    verdict := "", aiDiagnosis := "", status := "", createdAt := 0 }

/-- Redis key used by `updateJob` / the handlers: `"job:" + id`. -/
def jobKey (id : String) : String := "job:" ++ id

/-- Outcomes of the external Docker calls made by one invocation of
`executePythonCode`: each `Option String` is `some errText` when the
corresponding call fails (`err.Error()` text), `none` when it succeeds.
`timedOut` is true when the 5-second `time.After` branch of the `select`
wins the race against `statusCh`/`errCh` (both of which simply fall
through, i.e. behave as `timedOut = false`).  `stdout`/`stderr` are the
streams demultiplexed from `ContainerLogs` by `stdcopy.StdCopy`. -/
structure DockerEnv where
  clientErr : Option String
  createErr : Option String
  startErr : Option String
  timedOut : Bool
  stdout : String
  stderr : String
deriving Repr

/-- Resource bookkeeping for one `executePythonCode` invocation: whether
the deferred `os.Remove` ran (the temp `.py` artifact is gone), whether
`ContainerCreate` succeeded, and whether `ContainerRemove` was reached. -/
structure SandboxState where
  fileRemoved : Bool
  containerCreated : Bool
  containerRemoved : Bool
deriving DecidableEq, Repr

/-- The timeout marker `executePythonCode` appends:
`timeoutWarning = "\n⚠️ Time Limit Exceeded"`. -/
def timeLimitMarker : String := "\n⚠️ Time Limit Exceeded"

/-- `executePythonCode`, modelled over the outcomes of its external calls.
Control flow follows the Go source line by line: client error, create
error and start error each return early with a wrapped error message; the
deferred `os.Remove(filePath)` runs on every exit path, while
`cli.ContainerRemove` is plain (not deferred) code at the end of the
function, so it runs only when no early return was taken.  On the normal
path the output is `stdout`, then `"\n" + stderr` if stderr is non-empty,
then the timeout marker if the deadline fired. -/
def executePythonCode (env : DockerEnv) : Except String String × SandboxState :=
  match env.clientErr with
  | some e => (.error ("client error: " ++ e),
      { fileRemoved := true, containerCreated := false, containerRemoved := false })
  | none =>
    match env.createErr with
    | some e => (.error ("create error: " ++ e),
        { fileRemoved := true, containerCreated := false, containerRemoved := false })
    | none =>
      match env.startErr with
      | some e => (.error ("start error: " ++ e),
          { fileRemoved := true, containerCreated := true, containerRemoved := false })
      | none =>
        let timeoutWarning := if env.timedOut then timeLimitMarker else ""
        let finalOutput :=
          env.stdout ++ (if 0 < env.stderr.length then "\n" ++ env.stderr else "")
            ++ timeoutWarning
        (.ok finalOutput,
          { fileRemoved := true, containerCreated := true, containerRemoved := true })

/-- The `(output, err)` pair the worker receives from
`output, err := executePythonCode(job.Code)`; on error Go returns the
zero string as output. -/
structure ExecResult where
  output : String
  err : Option String
deriving Repr

/-- Fold the sandbox invocation into the worker's view of it. -/
def execResult (env : DockerEnv) : ExecResult :=
  match (executePythonCode env).1 with
  | .ok out => { output := out, err := none }
  | .error e => { output := "", err := some e }

/-- The Python stack-trace header the worker greps the output for. -/
def tracebackMarker : String := "Traceback (most recent call last)"

/-- The worker's crash heuristic:
`strings.Contains(output, "Traceback (most recent call last)") ||
strings.Contains(output, "Error:")`. -/
def containsCrashMarker (out : String) : Bool :=
  containsSubstr out tracebackMarker || containsSubstr out "Error:"

/-- Observable effects of one iteration of `startWorker` after a job ID
was popped: the ordered `updateJob` writes (Redis key, record written),
the source text handed to `executePythonCode` (always invoked), and
whether `callNexusAI` was invoked. -/
structure WorkerTrace where
  writes : List (String × Job)
  executedCode : Option String
  aiCalled : Bool
deriving Repr

/-- `updateJob(job)`: `rdb.Set(ctx, "job:"+job.ID, data, 1h)`. -/
def updateJobWrite (j : Job) : String × Job := (jobKey j.id, j)

/-- One worker iteration on a popped job ID, from the point where the
record was fetched.  `rec` is the result of unmarshalling the fetched
value: `none` when the record was absent (or unparseable), in which case
Go's `json.Unmarshal` leaves `var job Job` at its zero value — the code
performs no absence check and proceeds regardless.  `res` is the pair
returned by `executePythonCode(job.Code)`; `nexus` is `callNexusAI`. -/
def processJob (rec : Option Job) (res : ExecResult)
    (nexus : String → String → String) : WorkerTrace :=
  let job0 := rec.getD zeroJob
  let jobP := { job0 with status := "processing" }
  let isRuntimeError := res.err.isSome || containsCrashMarker res.output
  let actual := match res.err with | some e => e | none => res.output
  let term :=
    if isRuntimeError then
      { jobP with
        actualOutput := actual
        status := "failed"
        verdict := "Runtime Error"
        aiDiagnosis := nexus job0.code actual }
    else
      { jobP with
        actualOutput := res.output
        status := "completed"
        verdict :=
          if trimSpace res.output = trimSpace job0.expectedOutput then "Passed"
          else "Failed" }
  { writes := [updateJobWrite jobP, updateJobWrite term],
    executedCode := some job0.code,
    aiCalled := isRuntimeError }

/-- The whole per-job pipeline: sandbox run folded into the judge. -/
def runJob (rec : Option Job) (env : DockerEnv)
    (nexus : String → String → String) : WorkerTrace :=
  processJob rec (execResult env) nexus

/-- The terminal record of a worker iteration (the last write). -/
def terminalRecord (t : WorkerTrace) : Job :=
  ((t.writes.getLast?).map Prod.snd).getD zeroJob

/-- The `"⚠️ Nexus AI Unavailable: "` marker `callNexusAI` prepends to the
transport error text. -/
def nexusUnavailableMark : String := "⚠️ Nexus AI Unavailable: "

/-- Outcome of the `http.Post` in `callNexusAI`: a transport error, or a
response body; `body none` models a body that `json.Unmarshal` rejects
(the `map[string]string` stays nil), `body (some fields)` a decoded JSON
object as a key/value list. -/
inductive NexusResponse where
  | transportErr (msg : String)
  | body (fields : Option (List (String × String)))
deriving Repr

/-- `callNexusAI`: on transport error return the marked placeholder;
otherwise return `result["analysis"]`, which is Go's zero string when the
key is missing or the unmarshal failed. -/
def callNexusAI (resp : NexusResponse) : String :=
  match resp with
  | .transportErr msg => nexusUnavailableMark ++ msg
  | .body none => ""
  | .body (some fields) => ((fields.lookup "analysis").getD "")

/-- Outcome of `rdb.Get(ctx, "job:"+jobID).Result()` in the status
handler: a value, the `redis.Nil` sentinel (key absent), or any other
error — in which case go-redis returns the zero string as the value. -/
inductive GetResult where
  | found (val : String)
  | nilErr
  | otherErr (msg : String)
deriving Repr

/-- What `GET /status/:id` replies. -/
inductive StatusResponse where
  | notFound
  | ok (job : Job)
deriving DecidableEq, Repr

/-- The `GET /status/:id` handler: only `err == redis.Nil` is checked; on
any other error the handler falls through with `val = ""`, unmarshals it
into the zero `Job` (`unmarshal` models `json.Unmarshal`, `none` meaning
it failed and left the struct untouched), and replies 200 OK. -/
def statusEndpoint (unmarshal : String → Option Job) (r : GetResult) :
    StatusResponse :=
  match r with
  | .nilErr => .notFound
  | .found val => .ok ((unmarshal val).getD zeroJob)
  | .otherErr _ => .ok ((unmarshal "").getD zeroJob)

/-- The record the `POST /submit` handler stores before queueing the ID:
status `pending`, outputs and verdict still empty. -/
def submitJob (id code expectedOutput : String) (now : Int) : Job :=
  { zeroJob with
    id := id
    code := code
    expectedOutput := expectedOutput
    status := "pending"
    createdAt := now }

/-- The Verdict Judge rule as the specification words it (§4.2), for
comparison with the classification the worker actually performs: `runErr`
or a crash marker in the captured output gives `Runtime Error` (the
spec's `RuntimeError` verdict) with priority; otherwise trim-equality
decides `Passed` against `Failed`. -/
def judgeSpecRule (actualOutput expectedOutput : String) (runErr : Bool) :
    String :=
  if runErr || containsCrashMarker actualOutput then "Runtime Error"
  else if trimSpace actualOutput = trimSpace expectedOutput then "Passed"
  else "Failed"

/-- Output composition as the specification words it (§4.1): stdout,
then — only if stderr is non-empty — stderr behind a separator, then —
only if the run timed out — the timeout marker appended last. -/
def composeOutputSpec (stdout stderr : String) (timedOut : Bool) : String :=
  (stdout ++ (if stderr = "" then "" else "\n" ++ stderr)) ++
    (if timedOut then timeLimitMarker else "")

/-- Per-job sequence of `status` values written to the submitted record's
own key `job:id`: the submit handler's initial write, then those worker
writes that target that key. -/
def statusTrace (sub : Job) (rec : Option Job) (res : ExecResult)
    (nexus : String → String → String) : List String :=
  sub.status ::
    (((processJob rec res nexus).writes.filter fun w => w.1 == jobKey sub.id).map
      fun w => w.2.status)

/-- Order of the status lifecycle: pending before processing before the
two terminal states (`completed` and `failed` are both rank 2). -/
def statusRank : String → Nat
  | "pending" => 0
  | "processing" => 1
  | "completed" => 2
  | "failed" => 2
  | _ => 3

/-- A concrete submitted job used by witnesses/counterexamples. -/
def sampleJob : Job :=
  submitJob "1700000000000000000" "1/0" "" 1700000000

/-- A concrete job whose program sleeps past the deadline. -/
def sleepJob : Job :=
  submitJob "1700000000000000001" "import time\ntime.sleep(600)" "" 1700000000

/-- A docker environment where every call succeeds and the deadline fires
before the program finishes, with no partial output. -/
def timeoutEnv : DockerEnv :=
  { clientErr := none, createErr := none, startErr := none,
    timedOut := true, stdout := "", stderr := "" }

/-- A docker environment where `ContainerStart` fails. -/
def startFailEnv : DockerEnv :=
  { clientErr := none, createErr := none, startErr := some "cannot start container",
    timedOut := false, stdout := "", stderr := "" }

/-- A docker environment where building the docker client fails. -/
def clientFailEnv : DockerEnv :=
  { clientErr := some "dial tcp: connection refused", createErr := none,
    startErr := none, timedOut := false, stdout := "", stderr := "" }

/-- A docker environment for an ordinary successful run. -/
def okEnv : DockerEnv :=
  { clientErr := none, createErr := none, startErr := none,
    timedOut := false, stdout := "hello\n", stderr := "" }

/- Helper lemmas shared by the claim theorems. -/

lemma ne_empty_of_data_ne (s : String) (h : s.data ≠ []) : s ≠ "" := by
  intro hq
  exact h (by rw [hq])

lemma append_ne_empty_left (s t : String) (h : s.data ≠ []) : s ++ t ≠ "" := by
  intro hq
  have hd := congrArg String.data hq
  rw [String.data_append] at hd
  rw [show ("" : String).data = [] from rfl] at hd
  rcases List.append_eq_nil.mp hd with ⟨h1, _⟩
  exact h h1

lemma ne_empty_of_infix (p : List Char) (s : String) (hp : p ≠ [])
    (h : p <:+: s.data) : s ≠ "" := by
  rcases h with ⟨u, v, huv⟩
  apply ne_empty_of_data_ne
  intro hd
  rw [hd] at huv
  rcases List.append_eq_nil.mp huv with ⟨h1, _⟩
  rcases List.append_eq_nil.mp h1 with ⟨_, h2⟩
  exact hp h2

lemma containsCrashMarker_ne_empty (out : String)
    (h : containsCrashMarker out = true) : out ≠ "" := by
  unfold containsCrashMarker containsSubstr at h
  rcases Bool.or_eq_true_iff.mp h with h1 | h1
  · exact ne_empty_of_infix tracebackMarker.data out (by decide)
      (of_decide_eq_true h1)
  · exact ne_empty_of_infix ("Error:" : String).data out (by decide)
      (of_decide_eq_true h1)

lemma executePythonCode_ok (env : DockerEnv) (h1 : env.clientErr = none)
    (h2 : env.createErr = none) (h3 : env.startErr = none) :
    executePythonCode env =
      (.ok (env.stdout ++ (if 0 < env.stderr.length then "\n" ++ env.stderr else "")
          ++ (if env.timedOut then timeLimitMarker else "")),
        { fileRemoved := true, containerCreated := true, containerRemoved := true }) := by
  unfold executePythonCode
  rw [h1, h2, h3]

lemma execResult_ok (env : DockerEnv) (h1 : env.clientErr = none)
    (h2 : env.createErr = none) (h3 : env.startErr = none) :
    execResult env =
      { output := env.stdout ++ (if 0 < env.stderr.length then "\n" ++ env.stderr else "")
          ++ (if env.timedOut then timeLimitMarker else ""),
        err := none } := by
  unfold execResult
  rw [executePythonCode_ok env h1 h2 h3]

lemma execResult_err_ne (env : DockerEnv) (e : String)
    (h : (execResult env).err = some e) : e ≠ "" := by
  unfold execResult executePythonCode at h
  rcases env with ⟨ce, cre, se, t, so, st⟩
  cases ce with
  | some x =>
      injection h with h
      subst h
      exact append_ne_empty_left "client error: " x (by decide)
  | none =>
  cases cre with
  | some x =>
      injection h with h
      subst h
      exact append_ne_empty_left "create error: " x (by decide)
  | none =>
  cases se with
  | some x =>
      injection h with h
      subst h
      exact append_ne_empty_left "start error: " x (by decide)
  | none => simp at h

lemma terminalRecord_pair (w1 w2 : String × Job) (ec : Option String)
    (ai : Bool) :
    terminalRecord { writes := [w1, w2], executedCode := ec, aiCalled := ai } =
      w2.2 := rfl

lemma ite_passed_failed_ne_runtime (p : Prop) [Decidable p] :
    (if p then "Passed" else "Failed") ≠ ("Runtime Error" : String) := by
  split <;> decide

lemma containsSubstr_append_right (s t : String) :
    containsSubstr (s ++ t) t = true := by
  unfold containsSubstr
  apply decide_eq_true
  rw [String.data_append]
  exact ⟨s.data, [], by simp⟩

/-- A docker environment where the program crashes with a Python
traceback on stderr and the run finishes before the deadline. -/
def pythonErrEnv : DockerEnv :=
  { clientErr := none, createErr := none, startErr := none,
    timedOut := false, stdout := "",
    stderr := "Traceback (most recent call last):\n  File \"/app/job.py\", line 1\nZeroDivisionError: division by zero" }

/-- Claim C1, counterexample: a dequeued job whose run completes with a
Python traceback is classified `Runtime Error`, yet the terminal record
the worker persists carries `status = "failed"`, not `"completed"`. -/
theorem claim1_counterexample :
    (terminalRecord (runJob (some sampleJob) pythonErrEnv fun _ _ => "")).verdict
        = "Runtime Error" ∧
      (terminalRecord (runJob (some sampleJob) pythonErrEnv fun _ _ => "")).status
        ≠ "completed" ∧
      (terminalRecord (runJob (some sampleJob) pythonErrEnv fun _ _ => "")).status
        = "failed" := by
  refine ⟨by decide, by decide, by decide⟩

/-- Claim C1 (amended): whenever the terminal record's verdict is
`Runtime Error`, the status the worker persists with it is `failed`,
never `completed`. -/
theorem claim1_amended (rec : Option Job) (res : ExecResult)
    (nexus : String → String → String)
    (h : (terminalRecord (processJob rec res nexus)).verdict = "Runtime Error") :
    (terminalRecord (processJob rec res nexus)).status = "failed" := by
  cases hb : res.err.isSome || containsCrashMarker res.output <;>
    simp [processJob, terminalRecord_pair, updateJobWrite, hb] at h ⊢
  split at h <;> simp_all

/-- Witness for the amended C1 at a concrete crashing run. -/
theorem claim1_amended_witness :
    (terminalRecord (processJob (some sampleJob) (execResult pythonErrEnv)
        fun _ _ => "")).status = "failed" :=
  claim1_amended (some sampleJob) (execResult pythonErrEnv) (fun _ _ => "")
    (by decide)

/-- Claim C2, counterexample: when the popped ID's record is absent the
worker does not abandon the job — it still invokes the sandbox (on the
zero record's empty code) and still performs two store writes. -/
theorem claim2_counterexample :
    (processJob none { output := "", err := none } fun _ _ => "").executedCode
        = some "" ∧
      (processJob none { output := "", err := none } fun _ _ => "").writes.length
        = 2 := by
  refine ⟨rfl, rfl⟩

/-- Claim C2 (amended): on a popped ID whose record is absent, the worker
performs no absence check: it proceeds with the zero-valued record,
invokes the sandbox on the empty code string, and persists a processing
record and then a terminal record, both under the key `"job:"` built from
the empty ID. -/
theorem claim2_amended (res : ExecResult) (nexus : String → String → String) :
    (processJob none res nexus).executedCode = some "" ∧
      (processJob none res nexus).writes.map Prod.fst = ["job:", "job:"] ∧
      ((processJob none res nexus).writes.map fun w => w.2.status).head?
        = some "processing" := by
  cases hb : res.err.isSome || containsCrashMarker res.output <;>
    simp [processJob, updateJobWrite, zeroJob, jobKey, hb]

/-- Claim C3, counterexample: a timed-out run's record does contain the
timeout marker, but its verdict is `Failed` (the marker carries no
`Error:` token, so the crash heuristic does not fire), not the claim's
`RuntimeError`. -/
theorem claim3_counterexample :
    containsSubstr
        (terminalRecord (runJob (some sleepJob) timeoutEnv fun _ _ => "")).actualOutput
        timeLimitMarker = true ∧
      (terminalRecord (runJob (some sleepJob) timeoutEnv fun _ _ => "")).verdict
        = "Failed" ∧
      (terminalRecord (runJob (some sleepJob) timeoutEnv fun _ _ => "")).verdict
        ≠ "Runtime Error" ∧
      (terminalRecord (runJob (some sleepJob) timeoutEnv fun _ _ => "")).status
        = "completed" := by
  refine ⟨by decide, by decide, by decide, by decide⟩

/-- Claim C3 (amended): a run that exceeds the wall-clock deadline yields
a terminal record whose output contains the timeout marker; but the
verdict is not `Runtime Error` — unless the captured output happens to
contain a crash marker of its own, the job completes and is judged by the
ordinary trim comparison. -/
theorem claim3_amended (rec : Option Job) (env : DockerEnv)
    (nexus : String → String → String) (h1 : env.clientErr = none)
    (h2 : env.createErr = none) (h3 : env.startErr = none)
    (ht : env.timedOut = true) :
    containsSubstr
        (terminalRecord (runJob rec env nexus)).actualOutput timeLimitMarker
        = true ∧
      (containsCrashMarker (execResult env).output = false →
        (terminalRecord (runJob rec env nexus)).status = "completed" ∧
        (terminalRecord (runJob rec env nexus)).verdict ≠ "Runtime Error") := by
  have hres := execResult_ok env h1 h2 h3
  rw [ht] at hres
  simp only [if_true] at hres
  unfold runJob
  rw [hres]
  constructor
  · cases hcm : containsCrashMarker
        (env.stdout ++ (if 0 < env.stderr.length then "\n" ++ env.stderr else "")
          ++ timeLimitMarker) <;>
      simp [processJob, terminalRecord_pair, updateJobWrite, hcm,
        containsSubstr_append_right]
  · intro hcm
    dsimp only at hcm
    simp only [processJob, terminalRecord_pair, updateJobWrite, hcm,
      Option.isSome_none, Bool.false_or, Bool.false_eq_true, if_false]
    exact ⟨trivial, ite_passed_failed_ne_runtime _⟩

/-- Witness for the amended C3 at a concrete timed-out run. -/
theorem claim3_amended_witness :
    containsSubstr
        (terminalRecord (runJob (some sleepJob) timeoutEnv fun _ _ => "x")).actualOutput
        timeLimitMarker = true ∧
      (terminalRecord (runJob (some sleepJob) timeoutEnv fun _ _ => "x")).status
        = "completed" ∧
      (terminalRecord (runJob (some sleepJob) timeoutEnv fun _ _ => "x")).verdict
        ≠ "Runtime Error" :=
  ⟨(claim3_amended (some sleepJob) timeoutEnv (fun _ _ => "x") rfl rfl rfl rfl).1,
    (claim3_amended (some sleepJob) timeoutEnv (fun _ _ => "x") rfl rfl rfl rfl).2
      (by decide)⟩

/-- Claim C4: the worker's verdict classification agrees pointwise with
the spec's Judge rule — a run error or a crash marker in the captured
output gives `Runtime Error` with priority, otherwise trim-equality
decides `Passed` against `Failed`. -/
theorem claim4_judge_matches_spec (rec : Option Job) (res : ExecResult)
    (nexus : String → String → String) :
    (terminalRecord (processJob rec res nexus)).verdict =
      judgeSpecRule res.output (rec.getD zeroJob).expectedOutput
        res.err.isSome := by
  cases hb : res.err.isSome || containsCrashMarker res.output <;>
    simp [processJob, terminalRecord_pair, updateJobWrite, judgeSpecRule, hb]

/-- Claim C5, counterexample: on a well-formed transport but a response
body without the `analysis` key, `callNexusAI` returns the empty string —
not a non-empty "unavailable" placeholder. -/
theorem claim5_counterexample :
    callNexusAI (.body (some [("status", "ok")])) = "" := rfl

/-- Claim C5 (amended): `callNexusAI` always returns a string; on
transport failure it returns the non-empty marked placeholder, but on a
malformed response or a response missing the `analysis` key it degrades
to the empty string. -/
theorem claim5_amended (msg : String) (fields : List (String × String))
    (h : fields.lookup "analysis" = none) :
    callNexusAI (.transportErr msg) = nexusUnavailableMark ++ msg ∧
      callNexusAI (.transportErr msg) ≠ "" ∧
      callNexusAI (.body (some fields)) = "" ∧
      callNexusAI (.body none) = "" := by
  refine ⟨rfl, ?_, ?_, rfl⟩
  · exact append_ne_empty_left nexusUnavailableMark msg (by decide)
  · simp [callNexusAI, h]

/-- Witness for the amended C5 at a concrete transport failure and a
concrete empty response object. -/
theorem claim5_amended_witness :
    callNexusAI (.transportErr "connection refused")
        = nexusUnavailableMark ++ "connection refused" ∧
      callNexusAI (.transportErr "connection refused") ≠ "" ∧
      callNexusAI (.body (some [])) = "" ∧
      callNexusAI (.body none) = "" :=
  claim5_amended "connection refused" [] rfl

/-- Claim C6, counterexample: when `ContainerStart` fails, the function
returns early — the container was created but `ContainerRemove` is never
reached (only the temp file's deferred removal runs). -/
theorem claim6_counterexample :
    (executePythonCode startFailEnv).2.containerCreated = true ∧
      (executePythonCode startFailEnv).2.containerRemoved = false ∧
      (executePythonCode startFailEnv).2.fileRemoved = true :=
  ⟨rfl, rfl, rfl⟩

/-- Claim C6 (amended): the temp artifact is removed on every exit path
(its removal is deferred), and the container is removed on every path on
which it exists except the start-error early return. -/
theorem claim6_amended (env : DockerEnv) :
    (executePythonCode env).2.fileRemoved = true ∧
      ((executePythonCode env).2.containerCreated = true →
        env.startErr = none →
        (executePythonCode env).2.containerRemoved = true) := by
  rcases env with ⟨ce, cre, se, t, so, st⟩
  cases ce <;> cases cre <;> cases se <;>
    simp [executePythonCode]

/-- Witness for the amended C6 at a concrete successful run. -/
theorem claim6_amended_witness :
    (executePythonCode okEnv).2.fileRemoved = true ∧
      (executePythonCode okEnv).2.containerRemoved = true :=
  ⟨(claim6_amended okEnv).1, (claim6_amended okEnv).2 rfl rfl⟩

/-- Claim C7: on every run that returns output (no client, create or
start error), the captured output is exactly the spec's composition —
stdout, then stderr behind a separator only if non-empty, then the
timeout marker last only if the deadline fired — and the timeout marker
is non-empty. -/
theorem claim7_output_composition (env : DockerEnv) (h1 : env.clientErr = none)
    (h2 : env.createErr = none) (h3 : env.startErr = none) :
    (executePythonCode env).1 =
        .ok (composeOutputSpec env.stdout env.stderr env.timedOut) ∧
      timeLimitMarker ≠ "" := by
  constructor
  · rw [executePythonCode_ok env h1 h2 h3]
    unfold composeOutputSpec
    by_cases hs : env.stderr = ""
    · simp [hs]
    · have hl : 0 < env.stderr.length :=
        List.length_pos.mpr fun hd => hs (String.ext hd)
      simp [hs, hl]

  · exact ne_empty_of_data_ne timeLimitMarker (by decide)

/-- Witness for C7 at a concrete run with stdout, stderr and a timeout. -/
theorem claim7_output_composition_witness :
    (executePythonCode
          { clientErr := none, createErr := none, startErr := none,
            timedOut := true, stdout := "partial\n", stderr := "boom" }).1 =
        .ok (composeOutputSpec "partial\n" "boom" true) ∧
      timeLimitMarker ≠ "" :=
  claim7_output_composition
    { clientErr := none, createErr := none, startErr := none,
      timedOut := true, stdout := "partial\n", stderr := "boom" } rfl rfl rfl

/-- Claim C8: the per-job sequence of status values written to a
submitted job's own store key — `pending` at submission, then the worker
writes that target that key — is monotone along
pending → processing → {completed, failed}; in particular a desynced pop
(absent record) writes nothing to the submitted job's key. -/
theorem claim8_status_monotone (id code expected : String) (now : Int)
    (h : id ≠ "") (rec : Option Job) (res : ExecResult)
    (nexus : String → String → String)
    (hrec : ∀ j, rec = some j → j.id = id) :
    List.Chain' (fun a b => statusRank a ≤ statusRank b)
      (statusTrace (submitJob id code expected now) rec res nexus) := by
  cases rec with
  | none =>
      have hkne : (jobKey "" == jobKey id) = false := by
        rw [beq_eq_false_iff_ne]
        intro hq
        have hl := congrArg String.length hq
        rw [jobKey, jobKey, String.length_append, String.length_append] at hl
        rw [show ("" : String).length = 0 from rfl] at hl
        have h0 : id.length = 0 := by omega
        exact h (String.ext (List.length_eq_zero.mp h0))
      cases hb : res.err.isSome || containsCrashMarker res.output <;>
        simp [statusTrace, processJob, updateJobWrite, zeroJob, submitJob,
          hkne, hb]
  | some j =>
      have hj : j.id = id := hrec j rfl
      have hk : (jobKey j.id == jobKey id) = true := by
        rw [hj]
        exact beq_self_eq_true _
      cases hb : res.err.isSome || containsCrashMarker res.output <;>
        simp [statusTrace, processJob, updateJobWrite, submitJob, hk, hb,
          List.chain'_cons, statusRank]

/-- Witness for C8 at a concrete submitted job processed normally. -/
theorem claim8_status_monotone_witness :
    List.Chain' (fun a b => statusRank a ≤ statusRank b)
      (statusTrace (submitJob "1700000000000000000" "1/0" "" 1700000000)
        (some sampleJob) { output := "", err := none } fun _ _ => "") :=
  claim8_status_monotone "1700000000000000000" "1/0" "" 1700000000
    (by decide) (some sampleJob) { output := "", err := none } (fun _ _ => "")
    (by
      intro j hj
      cases hj
      rfl)

/-- Claim C9: every record the worker persists with `status = "failed"`
carries a non-empty `actual_output` — the sandbox error text on an
infrastructure failure, or output containing a crash marker. -/
theorem claim9_failed_nonempty_output (rec : Option Job) (env : DockerEnv)
    (nexus : String → String → String) :
    ∀ w ∈ (runJob rec env nexus).writes, w.2.status = "failed" →
      w.2.actualOutput ≠ "" := by
  intro w hw hst
  unfold runJob processJob at hw
  cases hres : (execResult env).err with
  | some e =>
      have hene : e ≠ "" := execResult_err_ne env e hres
      simp only [hres, Option.isSome_some, Bool.true_or, if_true,
        updateJobWrite, List.mem_pair] at hw
      rcases hw with hw | hw <;> subst hw
      · simp at hst
      · simpa using hene
  | none =>
      cases hcm : containsCrashMarker (execResult env).output with
      | false =>
          simp only [hres, hcm, Option.isSome_none, Bool.false_or, if_false,
            updateJobWrite, List.mem_pair] at hw
          rcases hw with hw | hw <;> subst hw <;> simp at hst
      | true =>
          have hone : (execResult env).output ≠ "" :=
            containsCrashMarker_ne_empty _ hcm
          simp only [hres, hcm, Option.isSome_none, Bool.false_or, if_true,
            updateJobWrite, List.mem_pair] at hw
          rcases hw with hw | hw <;> subst hw
          · simp at hst
          · simpa using hone

/-- Witness for C9 at a concrete infrastructure failure (docker client
cannot be built): the failed record carries the error text. -/
theorem claim9_failed_nonempty_output_witness :
    (terminalRecord (runJob (some sampleJob) clientFailEnv fun _ _ => "")).actualOutput
      ≠ "" :=
  claim9_failed_nonempty_output (some sampleJob) clientFailEnv (fun _ _ => "")
    (updateJobWrite
      (terminalRecord (runJob (some sampleJob) clientFailEnv fun _ _ => "")))
    (by decide) (by decide)

/-- Claim C10: when the store `Get` fails with an error other than the
not-found sentinel, the status endpoint replies 200 OK with the zero
`Job` (every field empty) instead of an error status — only `redis.Nil`
is checked, the zero value `val = ""` fails to unmarshal, and the zero
record is serialized back. -/
theorem claim10_store_error_zero_job (unmarshal : String → Option Job)
    (msg : String) (h : unmarshal "" = none) :
    statusEndpoint unmarshal (.otherErr msg) = .ok zeroJob := by
  simp [statusEndpoint, h]

/-- Witness for C10 at a concrete failing store and unmarshaller. -/
theorem claim10_store_error_zero_job_witness :
    statusEndpoint (fun _ => none) (.otherErr "connection refused")
      = .ok zeroJob :=
  claim10_store_error_zero_job (fun _ => none) "connection refused" rfl

end Orbit
